import Mathlib

/-!
Verification of the erssi anti-floodnet engine
(src/irc/anti-floodnet/anti-floodnet.c, floodnet-ctcp.c, floodnet-nick.c,
floodnet-stats.c) against its natural-language specification.

The C module is shallowly embedded: GSList sliding windows become Lean
lists (prepend order preserved), GHashTable key-to-expiry maps become
association lists with unique keys (ainsert removes the old binding, as
g_hash_table_insert overwrites), time_t becomes Int, counters become Nat,
and printtext notices become an explicit list of emitted messages.
The count fields of the C structures (message_count, ctcp_count,
change_count) always equal the length of the corresponding list, so the
embedding uses list lengths directly.
-/

/- ## Association lists (model of GHashTable) -/

def alookup [DecidableEq α] (k : α) : List (α × β) → Option β
  | [] => none
  | (a, b) :: rest => if a = k then some b else alookup k rest

def aremove [DecidableEq α] (k : α) : List (α × β) → List (α × β)
  | [] => []
  | (a, b) :: rest => if a = k then aremove k rest else (a, b) :: aremove k rest

/-- Insert with overwrite, as g_hash_table_insert replaces an existing key. -/
def ainsert [DecidableEq α] (k : α) (v : β) (l : List (α × β)) : List (α × β) :=
  (k, v) :: aremove k l

/- ## Data model (anti-floodnet.h) -/

/-- FLOODMSG_REC: one record of the private-message sliding window. -/
structure FLOODMSGREC where
  timestamp : Int
  nick : String
  userhost : String
  text : String
  hasTilde : Bool
deriving DecidableEq, Repr

/-- NICKCHANGE_REC: one record of a per-channel nick-change window. -/
structure NICKCHANGEREC where
  timestamp : Int
  oldNick : String
  newNick : String
deriving DecidableEq, Repr

/-- Settings cache of ANTI_FLOODNET_REC plus the enabled flag. -/
structure FloodnetConfig where
  enabled : Bool
  tildeThreshold : Nat
  duplicateThreshold : Nat
  ctcpThreshold : Nat
  nickchangeThreshold : Nat
  blockDuration : Nat
  timeWindow : Nat
  nickchangeWindow : Nat
  protectionNoticeInterval : Nat
deriving DecidableEq, Repr

/-- Default configuration values from anti-floodnet.h and read_settings. -/
def defaultConfig : FloodnetConfig :=
  { enabled := true, tildeThreshold := 5, duplicateThreshold := 3,
    ctcpThreshold := 5, nickchangeThreshold := 5, blockDuration := 60,
    timeWindow := 5, nickchangeWindow := 3, protectionNoticeInterval := 60 }

/-- ANTI_FLOODNET_REC: the mutable engine state. CTCP server identities and
the per-channel nick-change store are keyed by stable identifiers. -/
structure ANTIFLOODNETREC where
  messageWindow : List FLOODMSGREC
  channelNickChanges : List (String × List NICKCHANGEREC)
  blockedPatterns : List (String × Int)
  ctcpBlockedUntil : List (Nat × Int)
  nickBlockedChannels : List (String × Int)
  floodAttemptsToday : Nat
  lastResetDate : Int
  totalMessagesBlocked : Nat
  inProtectionMode : Bool
  protectionStarted : Int
  lastProtectionNotice : Int
  blockedSinceNotice : Nat
deriving DecidableEq, Repr

/-- Initial engine state from irc_anti_floodnet_init. -/
def initState : ANTIFLOODNETREC :=
  { messageWindow := [], channelNickChanges := [], blockedPatterns := [],
    ctcpBlockedUntil := [], nickBlockedChannels := [],
    floodAttemptsToday := 0, lastResetDate := 0, totalMessagesBlocked := 0,
    inProtectionMode := false, protectionStarted := 0,
    lastProtectionNotice := 0, blockedSinceNotice := 0 }

/-- Outcome of one detector evaluation: Block models signal_stop. -/
inductive FloodResult where
  | Allow : FloodResult
  | Block : FloodResult
deriving DecidableEq, Repr

/-- Status notices emitted through printtext. -/
inductive FloodnetMsg where
  | protActivated : FloodnetMsg
  | stillActive (elapsed : Int) (blockedSince : Nat) : FloodnetMsg
  | protEnded (duration : Int) (totalBlocked : Nat) : FloodnetMsg
deriving DecidableEq, Repr

/- ## Expiring blocklist mechanism (lazy expiry) -/

/-- Pure view: the key is blocked at time now (an entry exists and now is
before its expiry). -/
def aliveB [DecidableEq α] (m : List (α × Int)) (k : α) (now : Int) : Bool :=
  match alookup k m with
  | some e => decide (now < e)
  | none => false

/-- Core of is_message_blocked, is_ctcp_blocked, is_nick_channel_blocked:
report blocked if the entry is unexpired, otherwise remove any stale entry
and report not blocked. -/
def isBlockedIn [DecidableEq α] (m : List (α × Int)) (k : α) (now : Int) :
    Bool × List (α × Int) :=
  match alookup k m with
  | some e => if now < e then (true, m) else (false, aremove k m)
  | none => (false, m)

/- ## Userhost handling (check_tilde_ident, userhost building) -/

/-- Index of the first occurrence of c at or after position start, as
strchr starting inside the string. -/
def strchrFrom (cs : List Char) (c : Char) (start : Nat) : Option Nat :=
  match (cs.drop start).findIdx? (fun x => x == c) with
  | some i => some (start + i)
  | none => none

/-- check_tilde_ident on a non-null userhost: there is an exclamation mark,
a tilde after it, and an at sign from the exclamation mark onward with the
tilde before it.  When no at sign exists the C comparison is against a null
pointer and yields false. -/
def checkTildeIdent (userhost : String) : Bool :=
  let cs := userhost.toList
  match strchrFrom cs '!' 0 with
  | none => false
  | some ie =>
    match strchrFrom cs '~' (ie + 1), strchrFrom cs '@' ie with
    | some it, some ia => decide (it < ia)
    | _, _ => false

/-- check_message_flood builds nick!address when the address lacks an
exclamation mark, otherwise uses the address as the full userhost. -/
def buildUserhost (nick address : String) : String :=
  if address.toList.contains '!' then address else nick ++ "!" ++ address

/- ## Message sliding window -/

/-- mkFloodMsgRec packages one inbound private message as stored by
add_message_to_window. -/
def mkFloodMsgRec (nick userhost text : String) (now : Int) : FLOODMSGREC :=
  { timestamp := now, nick := nick, userhost := userhost, text := text,
    hasTilde := checkTildeIdent userhost }

/-- add_message_to_window prepends the record to the window. -/
def addMessageToWindow (s : ANTIFLOODNETREC) (nick userhost text : String)
    (now : Int) : ANTIFLOODNETREC :=
  { s with messageWindow := mkFloodMsgRec nick userhost text now :: s.messageWindow }

/-- cleanup_old_messages removes every record with timestamp below
now minus time_window. -/
def cleanupOldMessages (cfg : FloodnetConfig) (w : List FLOODMSGREC) (now : Int) :
    List FLOODMSGREC :=
  w.filter (fun r => ! decide (r.timestamp < now - (cfg.timeWindow : Int)))

/-- count_tilde_users counts the window records carrying the tilde flag. -/
def countTildeUsers (w : List FLOODMSGREC) : Nat :=
  w.countP (fun r => r.hasTilde)

/-- Number of window records with the given text (the frequency that
find_most_common_message accumulates per distinct text). -/
def textCount (w : List FLOODMSGREC) (t : String) : Nat :=
  w.countP (fun r => decide (r.text = t))

/-- find_most_common_message: the most frequent text of the window and its
count.  The C scans an unordered hash table with a strict comparison; the
embedding fixes the iteration order to window order (newest first), so the
first text reaching the maximal count wins ties. -/
def findMostCommonMessage (w : List FLOODMSGREC) : Option String × Nat :=
  w.foldl (fun acc r =>
    let c := textCount w r.text
    if acc.2 < c then (some r.text, c) else acc) (none, 0)

/- ## Blocklist wrappers on the engine state -/

/-- is_message_blocked with lazy expiry on the blocked_patterns map. -/
def isMessageBlocked (s : ANTIFLOODNETREC) (text : String) (now : Int) :
    Bool × ANTIFLOODNETREC :=
  let r := isBlockedIn s.blockedPatterns text now
  (r.1, { s with blockedPatterns := r.2 })

/-- block_duplicate_message: insert the text with expiry now plus the
duration. -/
def blockDuplicateMessage (s : ANTIFLOODNETREC) (text : String) (duration : Nat)
    (now : Int) : ANTIFLOODNETREC :=
  { s with blockedPatterns := ainsert text (now + (duration : Int)) s.blockedPatterns }

/-- is_ctcp_blocked with lazy expiry on the ctcp_blocked_until map. -/
def isCtcpBlocked (s : ANTIFLOODNETREC) (server : Nat) (now : Int) :
    Bool × ANTIFLOODNETREC :=
  let r := isBlockedIn s.ctcpBlockedUntil server now
  (r.1, { s with ctcpBlockedUntil := r.2 })

/-- is_nick_channel_blocked with lazy expiry on the nick_blocked_channels
map. -/
def isNickChannelBlocked (s : ANTIFLOODNETREC) (channel : String) (now : Int) :
    Bool × ANTIFLOODNETREC :=
  let r := isBlockedIn s.nickBlockedChannels channel now
  (r.1, { s with nickBlockedChannels := r.2 })

/-- extend_channel_block: set (or create) the channel entry with expiry now
plus block_duration. -/
def extendChannelBlock (cfg : FloodnetConfig) (s : ANTIFLOODNETREC)
    (channel : String) (now : Int) : ANTIFLOODNETREC :=
  { s with nickBlockedChannels :=
      ainsert channel (now + (cfg.blockDuration : Int)) s.nickBlockedChannels }

/- ## Protection-mode controller -/

/-- enter_protection_mode: only when currently inactive, record the
activation timestamps and announce activation. -/
def enterProtectionMode (s : ANTIFLOODNETREC) (now : Int) :
    ANTIFLOODNETREC × List FloodnetMsg :=
  if s.inProtectionMode = false then
    ({ s with inProtectionMode := true, protectionStarted := now,
              lastProtectionNotice := now, blockedSinceNotice := 0 },
     [FloodnetMsg.protActivated])
  else (s, [])

/-- exit_protection_mode: only when currently active, emit the final
summary and clear the active flag and the since-notice counter. -/
def exitProtectionMode (s : ANTIFLOODNETREC) (now : Int) :
    ANTIFLOODNETREC × List FloodnetMsg :=
  if s.inProtectionMode = true then
    ({ s with inProtectionMode := false, blockedSinceNotice := 0 },
     [FloodnetMsg.protEnded (now - s.protectionStarted) s.totalMessagesBlocked])
  else (s, [])

/-- check_protection_status: periodic notice when the interval elapsed,
then auto-exit when the window is empty and the activation is older than
block_duration plus time_window. -/
def checkProtectionStatus (cfg : FloodnetConfig) (s : ANTIFLOODNETREC)
    (now : Int) : ANTIFLOODNETREC × List FloodnetMsg :=
  if s.inProtectionMode = false then (s, []) else
  let per :=
    if (cfg.protectionNoticeInterval : Int) ≤ now - s.lastProtectionNotice then
      ({ s with lastProtectionNotice := now, blockedSinceNotice := 0 },
       [FloodnetMsg.stillActive (now - s.protectionStarted) s.blockedSinceNotice])
    else (s, [])
  if per.1.messageWindow.length = 0 ∧
     (cfg.blockDuration : Int) + (cfg.timeWindow : Int) < now - per.1.protectionStarted then
    let ex := exitProtectionMode per.1 now
    (ex.1, per.2 ++ ex.2)
  else per

/- ## Message-flood detector (check_message_flood) -/

/-- Blocking loop of the tilde rule: for each window record, if its text is
not currently blocked, insert it with expiry now plus the duration.  The
lazy-expiry lookup side effect on the patterns map is threaded exactly as
in the C loop. -/
def blockWindowTexts (bp : List (String × Int)) (w : List FLOODMSGREC)
    (now : Int) (dur : Nat) : List (String × Int) :=
  w.foldl (fun m r =>
    let ib := isBlockedIn m r.text now
    if ib.1 then ib.2 else ainsert r.text (now + (dur : Int)) ib.2) bp

/-- State after the two steps preceding the protection-mode test:
check_protection_status, then cleanup_old_messages. -/
def floodMidState (cfg : FloodnetConfig) (s : ANTIFLOODNETREC) (now : Int) :
    ANTIFLOODNETREC :=
  let s1 := (checkProtectionStatus cfg s now).1
  { s1 with messageWindow := cleanupOldMessages cfg s1.messageWindow now }

/-- Protection-mode pre-check of check_message_flood: active mode and a
blocked text or tilde-ident userhost. -/
def floodShortCircuit (s2 : ANTIFLOODNETREC) (userhost text : String)
    (now : Int) : Bool :=
  s2.inProtectionMode && ((isMessageBlocked s2 text now).1 || checkTildeIdent userhost)

/-- The window as analyzed by the detection rules: the purged window with
the current message prepended. -/
def analysisWindow (cfg : FloodnetConfig) (s : ANTIFLOODNETREC)
    (nick address text : String) (now : Int) : List FLOODMSGREC :=
  mkFloodMsgRec nick (buildUserhost nick address) text now ::
    (floodMidState cfg s now).messageWindow

/-- State just before the current message is added: when protection mode
is active the pre-check has called is_message_blocked, whose lazy-expiry
removal is kept. -/
def floodPreRuleState (cfg : FloodnetConfig) (s : ANTIFLOODNETREC)
    (text : String) (now : Int) : ANTIFLOODNETREC :=
  let s2 := floodMidState cfg s now
  if s2.inProtectionMode then (isMessageBlocked s2 text now).2 else s2

/-- Detection rules run on the state holding the freshly added message:
the tilde-ident rule (Pattern A), then the duplicate-text rule (Pattern B)
over a fixed floor of five messages. -/
def floodRules (cfg : FloodnetConfig) (s : ANTIFLOODNETREC) (text : String)
    (now : Int) : ANTIFLOODNETREC × FloodResult × List FloodnetMsg :=
  let w := s.messageWindow
  if cfg.tildeThreshold ≤ w.length ∧ cfg.tildeThreshold ≤ countTildeUsers w then
    let e := enterProtectionMode s now
    let s1 := { e.1 with floodAttemptsToday := e.1.floodAttemptsToday + 1,
                         totalMessagesBlocked := e.1.totalMessagesBlocked + 1,
                         blockedSinceNotice := e.1.blockedSinceNotice + 1 }
    ({ s1 with blockedPatterns := blockWindowTexts s1.blockedPatterns w now cfg.blockDuration },
     FloodResult.Block, e.2)
  else if 5 ≤ w.length then
    match findMostCommonMessage w with
    | (none, _) => (s, FloodResult.Allow, [])
    | (some mc, cnt) =>
      if cfg.duplicateThreshold ≤ cnt then
        let ib := isBlockedIn s.blockedPatterns mc now
        let stepped :=
          if ib.1 then ({ s with blockedPatterns := ib.2 }, ([] : List FloodnetMsg))
          else
            let e := enterProtectionMode { s with blockedPatterns := ib.2 } now
            ({ blockDuplicateMessage e.1 mc cfg.blockDuration now with
                 floodAttemptsToday := e.1.floodAttemptsToday + 1 }, e.2)
        if text = mc then
          ({ stepped.1 with totalMessagesBlocked := stepped.1.totalMessagesBlocked + 1,
                            blockedSinceNotice := stepped.1.blockedSinceNotice + 1 },
           FloodResult.Block, stepped.2)
        else (stepped.1, FloodResult.Allow, stepped.2)
      else (s, FloodResult.Allow, [])
  else (s, FloodResult.Allow, [])

/-- check_message_flood with a non-null address: status check, userhost
build, purge, protection-mode pre-check, window insertion, detection
rules. -/
def checkMessageFloodRun (cfg : FloodnetConfig) (s : ANTIFLOODNETREC)
    (nick address text : String) (now : Int) :
    ANTIFLOODNETREC × FloodResult × List FloodnetMsg :=
  if cfg.enabled = false then (s, FloodResult.Allow, []) else
  let ns := (checkProtectionStatus cfg s now).2
  let s2 := floodMidState cfg s now
  let userhost := buildUserhost nick address
  if floodShortCircuit s2 userhost text now then
    let s3 := (isMessageBlocked s2 text now).2
    ({ s3 with totalMessagesBlocked := s3.totalMessagesBlocked + 1,
               blockedSinceNotice := s3.blockedSinceNotice + 1 },
     FloodResult.Block, ns)
  else
    let r := floodRules cfg
      (addMessageToWindow (floodPreRuleState cfg s text now) nick userhost text now) text now
    (r.1, r.2.1, ns ++ r.2.2)

/-- check_message_flood as invoked by the privmsg handler.  The C reads
the address with strchr before any null check, so a null address is a null
dereference: the undefined behavior is modeled as none. -/
def checkMessageFlood (cfg : FloodnetConfig) (s : ANTIFLOODNETREC)
    (nick : String) (address : Option String) (text : String) (now : Int) :
    Option (ANTIFLOODNETREC × FloodResult × List FloodnetMsg) :=
  if cfg.enabled = false then some (s, FloodResult.Allow, []) else
  match address with
  | none => none
  | some a => some (checkMessageFloodRun cfg s nick a text now)

/- ## CTCP-flood detector (floodnet-ctcp.c) -/

/-- cleanup_old_ctcp removes timestamps below now minus time_window. -/
def cleanupOldCtcp (cfg : FloodnetConfig) (ts : List Int) (now : Int) : List Int :=
  ts.filter (fun t => ! decide (t < now - (cfg.timeWindow : Int)))

/-- check_ctcp_flood: blocked servers are refused outright; otherwise the
per-server timestamp window is purged, now is prepended, and reaching
ctcp_threshold blocks the server for block_duration. -/
def checkCtcpFlood (cfg : FloodnetConfig) (s : ANTIFLOODNETREC)
    (tr : List (Nat × List Int)) (server : Nat) (now : Int) :
    ANTIFLOODNETREC × List (Nat × List Int) × FloodResult × List FloodnetMsg :=
  if cfg.enabled = false then (s, tr, FloodResult.Allow, []) else
  let ib := isCtcpBlocked s server now
  let s1 := ib.2
  if ib.1 then
    ({ s1 with totalMessagesBlocked := s1.totalMessagesBlocked + 1,
               blockedSinceNotice := s1.blockedSinceNotice + 1 },
     tr, FloodResult.Block, [])
  else
    let ts0 := (alookup server tr).getD []
    let ts1 := now :: cleanupOldCtcp cfg ts0 now
    let tr1 := ainsert server ts1 tr
    if cfg.ctcpThreshold ≤ ts1.length then
      let e := enterProtectionMode s1 now
      ({ e.1 with ctcpBlockedUntil :=
                    ainsert server (now + (cfg.blockDuration : Int)) e.1.ctcpBlockedUntil,
                  floodAttemptsToday := e.1.floodAttemptsToday + 1,
                  totalMessagesBlocked := e.1.totalMessagesBlocked + 1,
                  blockedSinceNotice := e.1.blockedSinceNotice + 1 },
       tr1, FloodResult.Block, e.2)
    else (s1, tr1, FloodResult.Allow, [])

/- ## Nick-change-flood detector (floodnet-nick.c) -/

/-- A channel of the connection as seen by the suppression phase: its name
and the nicks currently on it. -/
structure CHANNELREC where
  name : String
  nicks : List String
deriving DecidableEq, Repr

/-- cleanup_old_nick_changes removes records below now minus
nickchange_window. -/
def cleanupOldNickChanges (cfg : FloodnetConfig) (l : List NICKCHANGEREC)
    (now : Int) : List NICKCHANGEREC :=
  l.filter (fun c => ! decide (c.timestamp < now - (cfg.nickchangeWindow : Int)))

/-- Channel scan of sig_message_nick: at the first channel that is blocked
and holds the renamed nick, extend the block, count the suppression and
stop. -/
def messageNickScan (cfg : FloodnetConfig) (newnick : String) (now : Int) :
    ANTIFLOODNETREC → List CHANNELREC → ANTIFLOODNETREC × FloodResult
  | s, [] => (s, FloodResult.Allow)
  | s, ch :: rest =>
    let ib := isNickChannelBlocked s ch.name now
    let s1 := ib.2
    if ib.1 && ch.nicks.contains newnick then
      ({ extendChannelBlock cfg s1 ch.name now with
           totalMessagesBlocked := s1.totalMessagesBlocked + 1,
           blockedSinceNotice := s1.blockedSinceNotice + 1 },
       FloodResult.Block)
    else messageNickScan cfg newnick now s1 rest

/-- sig_message_nick (Phase B, suppression of the nick-change
announcement). -/
def sigMessageNick (cfg : FloodnetConfig) (s : ANTIFLOODNETREC)
    (channels : List CHANNELREC) (newnick : String) (now : Int) :
    ANTIFLOODNETREC × FloodResult :=
  if cfg.enabled = false then (s, FloodResult.Allow) else
  messageNickScan cfg newnick now s channels

/-- sig_nicklist_changed (Phase A, per-channel tracking).  Null channel,
nick or old nick aborts the check; an already blocked channel only has its
block extended; otherwise the channel window is purged, the change is
recorded, and reaching nickchange_threshold enters protection and blocks
the channel. -/
def sigNicklistChanged (cfg : FloodnetConfig) (s : ANTIFLOODNETREC)
    (channel nick oldnick : Option String) (now : Int) :
    ANTIFLOODNETREC × List FloodnetMsg :=
  if cfg.enabled = false then (s, []) else
  match channel, nick, oldnick with
  | some ch, some nk, some onk =>
    let ib := isNickChannelBlocked s ch now
    let s1 := ib.2
    if ib.1 then (extendChannelBlock cfg s1 ch now, [])
    else
      let old := (alookup ch s1.channelNickChanges).getD []
      let l1 : List NICKCHANGEREC :=
        { timestamp := now, oldNick := onk, newNick := nk } ::
          cleanupOldNickChanges cfg old now
      let s2 := { s1 with channelNickChanges := ainsert ch l1 s1.channelNickChanges }
      if cfg.nickchangeThreshold ≤ l1.length then
        let e := enterProtectionMode s2 now
        ({ extendChannelBlock cfg e.1 ch now with
             floodAttemptsToday := e.1.floodAttemptsToday + 1 }, e.2)
      else (s2, [])
  | _, _, _ => (s, [])

/- ## Statistics (floodnet-stats.c) -/

/-- Reset branch of cmd_floodnet_status: zero both counters and stamp the
reset date. -/
def floodnetResetStats (s : ANTIFLOODNETREC) (now : Int) : ANTIFLOODNETREC :=
  { s with floodAttemptsToday := 0, totalMessagesBlocked := 0, lastResetDate := now }

/- ## Concrete states used to instantiate the theorems -/

/-- Window record shorthand for concrete states. -/
def mkRec (ts : Int) (nick userhost text : String) (tilde : Bool) : FLOODMSGREC :=
  { timestamp := ts, nick := nick, userhost := userhost, text := text, hasTilde := tilde }

/-- Active protection, five tilde-ident records in the window, all their
texts already blocked; the incoming tilde-ident message is short-circuited
by the pre-check. -/
def c1CexState : ANTIFLOODNETREC :=
  { initState with
    messageWindow :=
      [ mkRec 10 "u1" "u1!~a@h" "a" true, mkRec 10 "u2" "u2!~b@h" "b" true,
        mkRec 10 "u3" "u3!~c@h" "c" true, mkRec 10 "u4" "u4!~d@h" "d" true,
        mkRec 10 "u5" "u5!~e@h" "e" true ],
    blockedPatterns := [("a", 70), ("b", 70), ("c", 70), ("d", 70), ("e", 70)],
    floodAttemptsToday := 1, totalMessagesBlocked := 5,
    inProtectionMode := true, protectionStarted := 0,
    lastProtectionNotice := 10, blockedSinceNotice := 2 }

/-- Inactive protection, four tilde-ident records in the window; the fifth
tilde-ident message triggers the tilde rule. -/
def c1WitState : ANTIFLOODNETREC :=
  { initState with
    messageWindow :=
      [ mkRec 10 "u1" "u1!~a@h" "a" true, mkRec 10 "u2" "u2!~b@h" "b" true,
        mkRec 10 "u3" "u3!~c@h" "c" true, mkRec 10 "u4" "u4!~d@h" "d" true ] }

/-- Active protection, five equal-text records with unblocked text, and a
blocked incoming text: the pre-check fires, not the duplicate rule. -/
def c2CexState : ANTIFLOODNETREC :=
  { initState with
    messageWindow :=
      [ mkRec 10 "u1" "u1!a@h" "A" false, mkRec 10 "u2" "u2!b@h" "A" false,
        mkRec 10 "u3" "u3!c@h" "A" false, mkRec 10 "u4" "u4!d@h" "A" false,
        mkRec 10 "u5" "u5!e@h" "A" false ],
    blockedPatterns := [("B", 100)],
    floodAttemptsToday := 1, totalMessagesBlocked := 5,
    inProtectionMode := true, protectionStarted := 0,
    lastProtectionNotice := 10, blockedSinceNotice := 2 }

/-- Inactive protection, window holding two copies of SPAM and two other
texts; the incoming third SPAM reaches the sample floor of five. -/
def c2WitState : ANTIFLOODNETREC :=
  { initState with
    messageWindow :=
      [ mkRec 10 "u1" "u1!a@h" "SPAM" false, mkRec 10 "u2" "u2!b@h" "SPAM" false,
        mkRec 10 "u3" "u3!c@h" "x" false, mkRec 10 "u4" "u4!d@h" "y" false ] }

/-- Per-server CTCP tracking after four requests within the window. -/
def c4WitTrack : List (Nat × List Int) := [(7, [3, 2, 1, 0])]

/-- One blocked channel holding the renamed nick, behind an unblocked
channel. -/
def c5WitState : ANTIFLOODNETREC :=
  { initState with nickBlockedChannels := [("#test", 50)], totalMessagesBlocked := 2 }

/-- Channel list for the suppression scan: an unblocked channel first,
then the blocked channel holding the nick, then a further channel. -/
def c5WitChannels : List CHANNELREC :=
  [ { name := "#other", nicks := ["bob", "eve"] },
    { name := "#test", nicks := ["alice", "bob"] },
    { name := "#later", nicks := ["bob"] } ]

/-- Active protection with an empty window, activation old enough for
auto-exit. -/
def c6WitState : ANTIFLOODNETREC :=
  { initState with inProtectionMode := true, protectionStarted := 0,
                   lastProtectionNotice := 60, totalMessagesBlocked := 9 }

/-- Active protection whose auto-exit conditions hold, with a text block
that outlives the activation window: the next evaluation auto-exits before
the pre-check can fire. -/
def c8CexState : ANTIFLOODNETREC :=
  { initState with blockedPatterns := [("Z", 110)],
                   floodAttemptsToday := 1, totalMessagesBlocked := 3,
                   inProtectionMode := true, protectionStarted := 0,
                   lastProtectionNotice := 66 }

/-- Active protection, one fresh record in the window, the incoming text
blocked: the pre-check fires. -/
def c8WitState : ANTIFLOODNETREC :=
  { initState with
    messageWindow := [ mkRec 10 "u1" "u1!a@h" "x" false ],
    blockedPatterns := [("Z", 80)],
    floodAttemptsToday := 2, totalMessagesBlocked := 6,
    inProtectionMode := true, protectionStarted := 3,
    lastProtectionNotice := 10, blockedSinceNotice := 1 }

/-- Active protection state for the exit-frame instance. -/
def c10WitState : ANTIFLOODNETREC :=
  { initState with
    messageWindow := [ mkRec 60 "u1" "u1!a@h" "x" false ],
    blockedPatterns := [("p", 90)],
    floodAttemptsToday := 3, totalMessagesBlocked := 4,
    inProtectionMode := true, protectionStarted := 5,
    lastProtectionNotice := 30, blockedSinceNotice := 2 }

/-- Recognizer for the final protection-ended summary notice. -/
def isProtEnded : FloodnetMsg → Bool
  | FloodnetMsg.protEnded _ _ => true
  | _ => false

/- ## General lemmas about the embedded operations -/

theorem alookup_aremove_self [DecidableEq α] (k : α) (l : List (α × β)) :
    alookup k (aremove k l) = none := by
  induction l with
  | nil => rfl
  | cons p rest ih =>
    by_cases h : p.1 = k
    · simp [aremove, h, ih]
    · simp [aremove, alookup, h, ih]

theorem alookup_aremove_ne [DecidableEq α] (a k : α) (l : List (α × β)) (h : a ≠ k) :
    alookup a (aremove k l) = alookup a l := by
  induction l with
  | nil => rfl
  | cons p rest ih =>
    obtain ⟨a1, b⟩ := p
    by_cases hk : a1 = k
    · subst hk
      have hna : a1 ≠ a := fun hh => h hh.symm
      simp [aremove, alookup, hna, ih]
    · by_cases ha : a1 = a
      · subst ha
        simp [aremove, hk, alookup]
      · simp [aremove, hk, alookup, ha, ih]

theorem alookup_ainsert_self [DecidableEq α] (k : α) (v : β) (l : List (α × β)) :
    alookup k (ainsert k v l) = some v := by
  simp [ainsert, alookup]

theorem alookup_ainsert_ne [DecidableEq α] (a k : α) (v : β) (l : List (α × β)) (h : a ≠ k) :
    alookup a (ainsert k v l) = alookup a l := by
  have : k ≠ a := fun hh => h hh.symm
  simp [ainsert, alookup, this, alookup_aremove_ne a k l h]

theorem isBlockedIn_fst [DecidableEq α] (m : List (α × Int)) (k : α) (now : Int) :
    (isBlockedIn m k now).1 = aliveB m k now := by
  unfold isBlockedIn aliveB
  cases h : alookup k m with
  | none => simp
  | some e =>
    by_cases he : now < e
    · simp [he]
    · simp [he]

theorem isBlockedIn_snd_of_alive [DecidableEq α] (m : List (α × Int)) (k : α) (now : Int)
    (h : aliveB m k now = true) : (isBlockedIn m k now).2 = m := by
  unfold isBlockedIn
  unfold aliveB at h
  cases hl : alookup k m with
  | none => simp [hl] at h
  | some e =>
    rw [hl] at h
    simp only [decide_eq_true_eq] at h
    simp [hl, h]

theorem aliveB_isBlockedIn_snd [DecidableEq α] (m : List (α × Int)) (k t : α) (now : Int) :
    aliveB (isBlockedIn m k now).2 t now = aliveB m t now := by
  unfold isBlockedIn
  cases hl : alookup k m with
  | none => simp
  | some e =>
    by_cases he : now < e
    · simp [he]
    · simp only [he, if_false]
      by_cases htk : t = k
      · subst htk
        unfold aliveB
        rw [alookup_aremove_self, hl]
        simp [he]
      · unfold aliveB
        rw [alookup_aremove_ne t k m htk]

theorem isBlockedIn_roundtrip [DecidableEq α] (m : List (α × Int)) (k : α) (e t : Int) :
    (t < e → isBlockedIn (ainsert k e m) k t = (true, ainsert k e m)) ∧
    (e ≤ t → (isBlockedIn (ainsert k e m) k t).1 = false ∧
      alookup k (isBlockedIn (ainsert k e m) k t).2 = none) ∧
    (alookup k m = none → isBlockedIn m k t = (false, m)) := by
  refine ⟨fun h => ?_, fun h => ?_, fun h => ?_⟩
  · unfold isBlockedIn
    rw [alookup_ainsert_self]
    simp [h]
  · have hne : ¬ t < e := not_lt.mpr h
    constructor
    · unfold isBlockedIn
      rw [alookup_ainsert_self]
      simp [hne]
    · unfold isBlockedIn
      rw [alookup_ainsert_self]
      simp [hne, alookup_aremove_self]
  · unfold isBlockedIn
    rw [h]

theorem findMostCommonMessage_count (w : List FLOODMSGREC) (t : String)
    (h : (findMostCommonMessage w).1 = some t) :
    (findMostCommonMessage w).2 = textCount w t := by
  unfold findMostCommonMessage at h ⊢
  have aux : ∀ (l : List FLOODMSGREC) (acc : Option String × Nat),
      (acc = (none, 0) ∨ ∃ u, acc.1 = some u ∧ acc.2 = textCount w u) →
      (l.foldl (fun acc r =>
        let c := textCount w r.text
        if acc.2 < c then (some r.text, c) else acc) acc = (none, 0) ∨
       ∃ u, (l.foldl (fun acc r =>
        let c := textCount w r.text
        if acc.2 < c then (some r.text, c) else acc) acc).1 = some u ∧
        (l.foldl (fun acc r =>
        let c := textCount w r.text
        if acc.2 < c then (some r.text, c) else acc) acc).2 = textCount w u) := by
    intro l
    induction l with
    | nil => intro acc hacc; simpa using hacc
    | cons r rest ih =>
      intro acc hacc
      simp only [List.foldl_cons]
      apply ih
      by_cases hc : acc.2 < textCount w r.text
      · right
        exact ⟨r.text, by simp [hc], by simp [hc]⟩
      · simp only [hc, if_false]
        exact hacc
  rcases aux w (none, 0) (Or.inl rfl) with hnone | ⟨u, hu1, hu2⟩
  · rw [hnone] at h
    simp at h
  · rw [hu1] at h
    rw [hu2]
    simp only [Option.some.injEq] at h
    rw [h]

theorem aliveB_of_alookup_eq [DecidableEq α] (m1 m2 : List (α × Int)) (t : α) (now : Int)
    (h : alookup t m1 = alookup t m2) : aliveB m1 t now = aliveB m2 t now := by
  unfold aliveB
  rw [h]

theorem isBlockedIn_snd_lookup_ne [DecidableEq α] (m : List (α × Int)) (k t : α) (now : Int)
    (h : t ≠ k) : alookup t (isBlockedIn m k now).2 = alookup t m := by
  unfold isBlockedIn
  cases hl : alookup k m with
  | none => simp
  | some e =>
    by_cases he : now < e
    · simp [he]
    · simp only [he, if_false]
      exact alookup_aremove_ne t k m h

theorem enterProtectionMode_fields (s : ANTIFLOODNETREC) (now : Int) :
    (enterProtectionMode s now).1.inProtectionMode = true ∧
    (enterProtectionMode s now).1.floodAttemptsToday = s.floodAttemptsToday ∧
    (enterProtectionMode s now).1.totalMessagesBlocked = s.totalMessagesBlocked ∧
    (enterProtectionMode s now).1.blockedPatterns = s.blockedPatterns ∧
    (enterProtectionMode s now).1.ctcpBlockedUntil = s.ctcpBlockedUntil ∧
    (enterProtectionMode s now).1.nickBlockedChannels = s.nickBlockedChannels ∧
    (enterProtectionMode s now).1.messageWindow = s.messageWindow ∧
    (enterProtectionMode s now).1.blockedSinceNotice =
      (if s.inProtectionMode then s.blockedSinceNotice else 0) := by
  unfold enterProtectionMode
  cases h : s.inProtectionMode <;> simp [h]

theorem checkProtectionStatus_frame (cfg : FloodnetConfig) (s : ANTIFLOODNETREC) (now : Int) :
    (checkProtectionStatus cfg s now).1.messageWindow = s.messageWindow ∧
    (checkProtectionStatus cfg s now).1.channelNickChanges = s.channelNickChanges ∧
    (checkProtectionStatus cfg s now).1.blockedPatterns = s.blockedPatterns ∧
    (checkProtectionStatus cfg s now).1.ctcpBlockedUntil = s.ctcpBlockedUntil ∧
    (checkProtectionStatus cfg s now).1.nickBlockedChannels = s.nickBlockedChannels ∧
    (checkProtectionStatus cfg s now).1.floodAttemptsToday = s.floodAttemptsToday ∧
    (checkProtectionStatus cfg s now).1.totalMessagesBlocked = s.totalMessagesBlocked ∧
    (checkProtectionStatus cfg s now).1.protectionStarted = s.protectionStarted := by
  unfold checkProtectionStatus
  cases h : s.inProtectionMode
  · simp [h]
  · simp only [h]
    split_ifs <;> simp [exitProtectionMode, h]

theorem blockWindowTexts_cons (bp : List (String × Int)) (r : FLOODMSGREC)
    (rest : List FLOODMSGREC) (now : Int) (d : Nat) :
    blockWindowTexts bp (r :: rest) now d =
      blockWindowTexts
        (if (isBlockedIn bp r.text now).1 then (isBlockedIn bp r.text now).2
         else ainsert r.text (now + (d : Int)) (isBlockedIn bp r.text now).2)
        rest now d := rfl

theorem bwtStep_lookup_ne (bp : List (String × Int)) (r : FLOODMSGREC)
    (t : String) (now : Int) (d : Nat) (h : t ≠ r.text) :
    alookup t
      (if (isBlockedIn bp r.text now).1 then (isBlockedIn bp r.text now).2
       else ainsert r.text (now + (d : Int)) (isBlockedIn bp r.text now).2) =
    alookup t bp := by
  cases hb : (isBlockedIn bp r.text now).1
  · simp only [hb, if_false, Bool.false_eq_true]
    rw [alookup_ainsert_ne t r.text _ _ h]
    exact isBlockedIn_snd_lookup_ne bp r.text t now h
  · simp only [hb, if_true]
    rw [isBlockedIn_snd_of_alive bp r.text now (by rw [← isBlockedIn_fst]; exact hb)]

theorem blockWindowTexts_lookup_ne (now : Int) (d : Nat) (w : List FLOODMSGREC) :
    ∀ (bp : List (String × Int)) (t : String), (∀ r ∈ w, r.text ≠ t) →
      alookup t (blockWindowTexts bp w now d) = alookup t bp := by
  induction w with
  | nil => intro bp t _; rfl
  | cons r rest ih =>
    intro bp t h
    rw [blockWindowTexts_cons]
    have hrt : t ≠ r.text := fun hh => h r (List.mem_cons_self r rest) hh.symm
    rw [ih _ t (fun r2 hr2 => h r2 (List.mem_cons_of_mem r hr2))]
    exact bwtStep_lookup_ne bp r t now d hrt

theorem blockWindowTexts_lookup_alive (now : Int) (d : Nat) (w : List FLOODMSGREC) :
    ∀ (bp : List (String × Int)) (t : String), aliveB bp t now = true →
      alookup t (blockWindowTexts bp w now d) = alookup t bp := by
  induction w with
  | nil => intro bp t _; rfl
  | cons r rest ih =>
    intro bp t h
    rw [blockWindowTexts_cons]
    by_cases hrt : r.text = t
    · subst hrt
      have hfst : (isBlockedIn bp r.text now).1 = true := by
        rw [isBlockedIn_fst]; exact h
      have hsnd : (isBlockedIn bp r.text now).2 = bp :=
        isBlockedIn_snd_of_alive bp r.text now h
      rw [hfst]
      simp only [if_true]
      rw [hsnd]
      exact ih bp r.text h
    · have hne : t ≠ r.text := fun hh => hrt hh.symm
      have hstep := bwtStep_lookup_ne bp r t now d hne
      have halive2 : aliveB
          (if (isBlockedIn bp r.text now).1 then (isBlockedIn bp r.text now).2
           else ainsert r.text (now + (d : Int)) (isBlockedIn bp r.text now).2) t now = true := by
        rw [aliveB_of_alookup_eq _ bp t now hstep]; exact h
      rw [ih _ t halive2, hstep]

theorem blockWindowTexts_lookup_mem (now : Int) (d : Nat) (w : List FLOODMSGREC) :
    ∀ (bp : List (String × Int)) (t : String), (∃ r ∈ w, r.text = t) →
      aliveB bp t now = false →
      alookup t (blockWindowTexts bp w now d) = some (now + (d : Int)) := by
  induction w with
  | nil => intro bp t hex _; simp at hex
  | cons r rest ih =>
    intro bp t hex hal
    rw [blockWindowTexts_cons]
    by_cases hrt : r.text = t
    · have hfst : (isBlockedIn bp r.text now).1 = false := by
        rw [isBlockedIn_fst, hrt]; exact hal
      rw [hfst]
      simp only [Bool.false_eq_true, if_false]
      have h1 : alookup t (ainsert r.text (now + (d : Int)) (isBlockedIn bp r.text now).2) =
          some (now + (d : Int)) := by
        rw [← hrt]; exact alookup_ainsert_self r.text _ _
      cases hal1 : aliveB (ainsert r.text (now + (d : Int)) (isBlockedIn bp r.text now).2) t now
      · by_cases hex2 : ∃ r2 ∈ rest, r2.text = t
        · exact ih _ t hex2 hal1
        · push_neg at hex2
          rw [blockWindowTexts_lookup_ne now d rest _ t hex2]
          exact h1
      · rw [blockWindowTexts_lookup_alive now d rest _ t hal1]
        exact h1
    · rcases hex with ⟨r2, hr2, hrt2⟩
      rcases List.mem_cons.mp hr2 with hh | hh
      · exact absurd (hh ▸ hrt2) hrt
      · have hne : t ≠ r.text := fun hh2 => hrt hh2.symm
        have hstep := bwtStep_lookup_ne bp r t now d hne
        have hal2 : aliveB
            (if (isBlockedIn bp r.text now).1 then (isBlockedIn bp r.text now).2
             else ainsert r.text (now + (d : Int)) (isBlockedIn bp r.text now).2) t now = false := by
          rw [aliveB_of_alookup_eq _ bp t now hstep]; exact hal
        exact ih _ t ⟨r2, hh, hrt2⟩ hal2

theorem floodPreRuleState_fields (cfg : FloodnetConfig) (s : ANTIFLOODNETREC)
    (text : String) (now : Int) :
    (floodPreRuleState cfg s text now).messageWindow = (floodMidState cfg s now).messageWindow ∧
    (floodPreRuleState cfg s text now).inProtectionMode = (floodMidState cfg s now).inProtectionMode ∧
    (floodPreRuleState cfg s text now).floodAttemptsToday = (floodMidState cfg s now).floodAttemptsToday ∧
    (floodPreRuleState cfg s text now).totalMessagesBlocked = (floodMidState cfg s now).totalMessagesBlocked ∧
    (floodPreRuleState cfg s text now).blockedSinceNotice = (floodMidState cfg s now).blockedSinceNotice ∧
    (∀ t2, aliveB (floodPreRuleState cfg s text now).blockedPatterns t2 now =
      aliveB (floodMidState cfg s now).blockedPatterns t2 now) := by
  unfold floodPreRuleState
  cases h : (floodMidState cfg s now).inProtectionMode <;>
    simp [h, isMessageBlocked, aliveB_isBlockedIn_snd]

theorem checkMessageFloodRun_noSC (cfg : FloodnetConfig) (s : ANTIFLOODNETREC)
    (nick address text : String) (now : Int)
    (hEn : cfg.enabled = true)
    (hSC : floodShortCircuit (floodMidState cfg s now) (buildUserhost nick address) text now = false) :
    checkMessageFloodRun cfg s nick address text now =
      ((floodRules cfg (addMessageToWindow (floodPreRuleState cfg s text now) nick
          (buildUserhost nick address) text now) text now).1,
       (floodRules cfg (addMessageToWindow (floodPreRuleState cfg s text now) nick
          (buildUserhost nick address) text now) text now).2.1,
       (checkProtectionStatus cfg s now).2 ++
         (floodRules cfg (addMessageToWindow (floodPreRuleState cfg s text now) nick
            (buildUserhost nick address) text now) text now).2.2) := by
  unfold checkMessageFloodRun
  simp [hEn, hSC]

theorem checkMessageFloodRun_SC (cfg : FloodnetConfig) (s : ANTIFLOODNETREC)
    (nick address text : String) (now : Int)
    (hEn : cfg.enabled = true)
    (hSC : floodShortCircuit (floodMidState cfg s now) (buildUserhost nick address) text now = true) :
    checkMessageFloodRun cfg s nick address text now =
      ({ (isMessageBlocked (floodMidState cfg s now) text now).2 with
           totalMessagesBlocked :=
             (isMessageBlocked (floodMidState cfg s now) text now).2.totalMessagesBlocked + 1,
           blockedSinceNotice :=
             (isMessageBlocked (floodMidState cfg s now) text now).2.blockedSinceNotice + 1 },
       FloodResult.Block, (checkProtectionStatus cfg s now).2) := by
  unfold checkMessageFloodRun
  simp [hEn, hSC]

theorem floodRules_tilde_fire (cfg : FloodnetConfig) (sa : ANTIFLOODNETREC)
    (text : String) (now : Int)
    (hLen : cfg.tildeThreshold ≤ sa.messageWindow.length)
    (hTil : cfg.tildeThreshold ≤ countTildeUsers sa.messageWindow) :
    (floodRules cfg sa text now).2.1 = FloodResult.Block ∧
    (floodRules cfg sa text now).1.inProtectionMode = true ∧
    (floodRules cfg sa text now).1.floodAttemptsToday = sa.floodAttemptsToday + 1 ∧
    (floodRules cfg sa text now).1.totalMessagesBlocked = sa.totalMessagesBlocked + 1 ∧
    (floodRules cfg sa text now).1.blockedSinceNotice =
      (if sa.inProtectionMode then sa.blockedSinceNotice else 0) + 1 ∧
    (floodRules cfg sa text now).1.blockedPatterns =
      blockWindowTexts sa.blockedPatterns sa.messageWindow now cfg.blockDuration ∧
    (floodRules cfg sa text now).1.messageWindow = sa.messageWindow := by
  obtain ⟨e1, e2, e3, e4, _, _, e7, e8⟩ := enterProtectionMode_fields sa now
  unfold floodRules
  simp only [if_pos (And.intro hLen hTil)]
  exact ⟨by trivial, e1, by rw [e2], by rw [e3], by rw [e8], by rw [e4], e7⟩

theorem floodRules_dup (cfg : FloodnetConfig) (sa : ANTIFLOODNETREC)
    (text : String) (now : Int) (mc : String) (cnt : Nat)
    (hT : ¬(cfg.tildeThreshold ≤ sa.messageWindow.length ∧
            cfg.tildeThreshold ≤ countTildeUsers sa.messageWindow))
    (hW : 5 ≤ sa.messageWindow.length)
    (hFM : findMostCommonMessage sa.messageWindow = (some mc, cnt))
    (hCnt : cfg.duplicateThreshold ≤ cnt) :
    ((floodRules cfg sa text now).2.1 = FloodResult.Block ↔ text = mc) ∧
    (aliveB sa.blockedPatterns mc now = false →
      (floodRules cfg sa text now).1.inProtectionMode = true ∧
      alookup mc (floodRules cfg sa text now).1.blockedPatterns =
        some (now + (cfg.blockDuration : Int)) ∧
      (floodRules cfg sa text now).1.floodAttemptsToday = sa.floodAttemptsToday + 1) := by
  unfold floodRules
  simp only [if_neg hT, if_pos hW, hFM, if_pos hCnt]
  cases hal : aliveB sa.blockedPatterns mc now
  · have hfst : (isBlockedIn sa.blockedPatterns mc now).1 = false := by
      rw [isBlockedIn_fst]; exact hal
    cases hin : sa.inProtectionMode <;> by_cases htxt : text = mc <;>
      simp [hfst, htxt, hin, hal, blockDuplicateMessage, enterProtectionMode,
            alookup_ainsert_self]
  · have hfst : (isBlockedIn sa.blockedPatterns mc now).1 = true := by
      rw [isBlockedIn_fst]; exact hal
    by_cases htxt : text = mc <;> simp [hfst, htxt, hal]

/- ## Claim theorems -/

/-- C3: a key inserted into any of the three blocklists at time t0 with
duration D is blocked at every lookup before t0 + D (and the lookup leaves
the map unchanged), is not blocked at every lookup from t0 + D on (and the
expired entry is removed), and a key never inserted is not blocked. -/
theorem C3_expiry_roundtrip (cfg : FloodnetConfig) (s : ANTIFLOODNETREC)
    (text : String) (server : Nat) (channel : String) (t0 t : Int) (D : Nat) :
    ((t < t0 + (D : Int) →
        (isMessageBlocked (blockDuplicateMessage s text D t0) text t).1 = true ∧
        (isMessageBlocked (blockDuplicateMessage s text D t0) text t).2 =
          blockDuplicateMessage s text D t0) ∧
     (t0 + (D : Int) ≤ t →
        (isMessageBlocked (blockDuplicateMessage s text D t0) text t).1 = false ∧
        alookup text
          (isMessageBlocked (blockDuplicateMessage s text D t0) text t).2.blockedPatterns =
          none) ∧
     (alookup text s.blockedPatterns = none → (isMessageBlocked s text t).1 = false)) ∧
    ((t < t0 + (D : Int) →
        (isCtcpBlocked
          { s with ctcpBlockedUntil := ainsert server (t0 + (D : Int)) s.ctcpBlockedUntil }
          server t).1 = true) ∧
     (t0 + (D : Int) ≤ t →
        (isCtcpBlocked
          { s with ctcpBlockedUntil := ainsert server (t0 + (D : Int)) s.ctcpBlockedUntil }
          server t).1 = false ∧
        alookup server
          (isCtcpBlocked
            { s with ctcpBlockedUntil := ainsert server (t0 + (D : Int)) s.ctcpBlockedUntil }
            server t).2.ctcpBlockedUntil = none) ∧
     (alookup server s.ctcpBlockedUntil = none → (isCtcpBlocked s server t).1 = false)) ∧
    ((t < t0 + (cfg.blockDuration : Int) →
        (isNickChannelBlocked (extendChannelBlock cfg s channel t0) channel t).1 = true) ∧
     (t0 + (cfg.blockDuration : Int) ≤ t →
        (isNickChannelBlocked (extendChannelBlock cfg s channel t0) channel t).1 = false ∧
        alookup channel
          (isNickChannelBlocked (extendChannelBlock cfg s channel t0) channel t).2.nickBlockedChannels =
          none) ∧
     (alookup channel s.nickBlockedChannels = none →
        (isNickChannelBlocked s channel t).1 = false)) := by
  obtain ⟨m1, m2, m3⟩ := isBlockedIn_roundtrip s.blockedPatterns text (t0 + (D : Int)) t
  obtain ⟨c1, c2, c3⟩ := isBlockedIn_roundtrip s.ctcpBlockedUntil server (t0 + (D : Int)) t
  obtain ⟨n1, n2, n3⟩ :=
    isBlockedIn_roundtrip s.nickBlockedChannels channel (t0 + (cfg.blockDuration : Int)) t
  refine ⟨⟨fun h => ?_, fun h => ?_, fun h => ?_⟩,
          ⟨fun h => ?_, fun h => ?_, fun h => ?_⟩,
          ⟨fun h => ?_, fun h => ?_, fun h => ?_⟩⟩
  · constructor
    · simp only [isMessageBlocked, blockDuplicateMessage, m1 h]
    · simp only [isMessageBlocked, blockDuplicateMessage, m1 h]
  · exact ⟨by simp only [isMessageBlocked, blockDuplicateMessage, (m2 h).1],
           by simp only [isMessageBlocked, blockDuplicateMessage]; exact (m2 h).2⟩
  · simp only [isMessageBlocked, m3 h]
  · simp only [isCtcpBlocked, c1 h]
  · exact ⟨by simp only [isCtcpBlocked, (c2 h).1],
           by simp only [isCtcpBlocked]; exact (c2 h).2⟩
  · simp only [isCtcpBlocked, c3 h]
  · simp only [isNickChannelBlocked, extendChannelBlock, n1 h]
  · exact ⟨by simp only [isNickChannelBlocked, extendChannelBlock, (n2 h).1],
           by simp only [isNickChannelBlocked, extendChannelBlock]; exact (n2 h).2⟩
  · simp only [isNickChannelBlocked, n3 h]

theorem C3_expiry_roundtrip_witness :
    ((130 : Int) < 100 + (60 : Nat) ∧
      (isMessageBlocked (blockDuplicateMessage initState "x" 60 100) "x" 130).1 = true) ∧
    ((100 : Int) + (60 : Nat) ≤ 160 ∧
      (isMessageBlocked (blockDuplicateMessage initState "x" 60 100) "x" 160).1 = false) ∧
    (alookup 3 initState.ctcpBlockedUntil = none ∧
      (isCtcpBlocked initState 3 130).1 = false) :=
  ⟨⟨by decide,
    ((C3_expiry_roundtrip defaultConfig initState "x" 3 "#c" 100 130 60).1.1 (by decide)).1⟩,
   ⟨by decide,
    ((C3_expiry_roundtrip defaultConfig initState "x" 3 "#c" 100 160 60).1.2.1 (by decide)).1⟩,
   ⟨by decide,
    (C3_expiry_roundtrip defaultConfig initState "x" 3 "#c" 100 130 60).2.1.2.2 (by decide)⟩⟩

/-- C7: after each detector purge at time t, every retained record of the
message window, of a per-server CTCP window, and of a per-channel
nick-change window has a timestamp at least t minus the respective
configured window length. -/
theorem C7_window_bound (cfg : FloodnetConfig) (now : Int) (w : List FLOODMSGREC)
    (ts : List Int) (l : List NICKCHANGEREC) :
    (∀ r ∈ cleanupOldMessages cfg w now, now - (cfg.timeWindow : Int) ≤ r.timestamp) ∧
    (∀ t ∈ cleanupOldCtcp cfg ts now, now - (cfg.timeWindow : Int) ≤ t) ∧
    (∀ c ∈ cleanupOldNickChanges cfg l now,
      now - (cfg.nickchangeWindow : Int) ≤ c.timestamp) := by
  refine ⟨fun r hr => ?_, fun t ht => ?_, fun c hc => ?_⟩
  · have h2 := (List.mem_filter.mp hr).2
    simp only [Bool.not_eq_eq_eq_not, Bool.not_true, decide_eq_false_iff_not, not_lt] at h2
    exact h2
  · have h2 := (List.mem_filter.mp ht).2
    simp only [Bool.not_eq_eq_eq_not, Bool.not_true, decide_eq_false_iff_not, not_lt] at h2
    exact h2
  · have h2 := (List.mem_filter.mp hc).2
    simp only [Bool.not_eq_eq_eq_not, Bool.not_true, decide_eq_false_iff_not, not_lt] at h2
    exact h2

theorem C7_window_bound_witness :
    mkRec 3 "n" "n!u@h" "t" false ∈
      cleanupOldMessages defaultConfig [mkRec 3 "n" "n!u@h" "t" false] 5 ∧
    (5 : Int) - (defaultConfig.timeWindow : Int) ≤ (mkRec 3 "n" "n!u@h" "t" false).timestamp :=
  ⟨by decide,
   (C7_window_bound defaultConfig 5 [mkRec 3 "n" "n!u@h" "t" false] [] []).1
     (mkRec 3 "n" "n!u@h" "t" false) (by decide)⟩

/-- C9: the defensive fail-open policy is broken in check_message_flood:
the C passes a null sender address to strchr before any null check, a null
dereference, where the spec requires the check to be abandoned with Allow.
The nick-change tracker, by contrast, does abort on null input. -/
theorem C9_null_address_crash :
    checkMessageFlood defaultConfig initState "spammer" none "hello" 0 = none ∧
    sigNicklistChanged defaultConfig initState none (some "newnick") (some "oldnick") 5 =
      (initState, []) := by
  constructor
  · rfl
  · rfl

/-- C10: exiting protection mode resets only the active flag and the
blocked-since-notice counter; the attempt counter, the total-blocked
counter, the message window and all three blocklists are untouched, and
the final summary reports the cumulative total-blocked counter, the value
that only the statistics reset command zeroes. -/
theorem C10_exit_frame (s : ANTIFLOODNETREC) (now : Int)
    (h : s.inProtectionMode = true) :
    (exitProtectionMode s now).1 =
      { s with inProtectionMode := false, blockedSinceNotice := 0 } ∧
    (exitProtectionMode s now).2 =
      [FloodnetMsg.protEnded (now - s.protectionStarted) s.totalMessagesBlocked] ∧
    (floodnetResetStats s now).totalMessagesBlocked = 0 := by
  unfold exitProtectionMode floodnetResetStats
  simp [h]

theorem C10_exit_frame_witness :
    c10WitState.inProtectionMode = true ∧
    (exitProtectionMode c10WitState 70).1 =
      { c10WitState with inProtectionMode := false, blockedSinceNotice := 0 } ∧
    (exitProtectionMode c10WitState 70).2 =
      [FloodnetMsg.protEnded (70 - c10WitState.protectionStarted)
        c10WitState.totalMessagesBlocked] ∧
    (floodnetResetStats c10WitState 70).totalMessagesBlocked = 0 :=
  ⟨by decide, C10_exit_frame c10WitState 70 (by decide)⟩

/-- C6: a CheckStatus call made while protection mode is Active with the
message window empty and activation older than block_duration plus
time_window transitions to Inactive and emits exactly one final summary
notice; any call not meeting these conditions, including calls while
Inactive, performs no Active-to-Inactive transition. -/
theorem C6_auto_exit (cfg : FloodnetConfig) (s : ANTIFLOODNETREC) (now : Int) :
    ((s.inProtectionMode = true ∧ s.messageWindow = [] ∧
      (cfg.blockDuration : Int) + (cfg.timeWindow : Int) < now - s.protectionStarted) →
      (checkProtectionStatus cfg s now).1.inProtectionMode = false ∧
      (checkProtectionStatus cfg s now).2.countP isProtEnded = 1) ∧
    (¬(s.inProtectionMode = true ∧ s.messageWindow = [] ∧
      (cfg.blockDuration : Int) + (cfg.timeWindow : Int) < now - s.protectionStarted) →
      (checkProtectionStatus cfg s now).1.inProtectionMode = s.inProtectionMode) := by
  constructor
  · rintro ⟨h1, h2, h3⟩
    unfold checkProtectionStatus
    simp only [h1]
    by_cases hper : (cfg.protectionNoticeInterval : Int) ≤ now - s.lastProtectionNotice <;>
      simp [hper, h1, h2, h3, exitProtectionMode, isProtEnded]
  · intro hn
    unfold checkProtectionStatus
    cases h1 : s.inProtectionMode
    · simp [h1]
    · simp only [h1]
      have hcond : ¬(s.messageWindow = [] ∧
          (cfg.blockDuration : Int) + (cfg.timeWindow : Int) < now - s.protectionStarted) :=
        fun hc => hn ⟨h1, hc.1, hc.2⟩
      by_cases hper : (cfg.protectionNoticeInterval : Int) ≤ now - s.lastProtectionNotice <;>
        simp [hper, List.length_eq_zero, hcond, h1]

theorem C6_auto_exit_witness :
    (c6WitState.inProtectionMode = true ∧ c6WitState.messageWindow = [] ∧
      (defaultConfig.blockDuration : Int) + (defaultConfig.timeWindow : Int) <
        70 - c6WitState.protectionStarted) ∧
    ((checkProtectionStatus defaultConfig c6WitState 70).1.inProtectionMode = false ∧
      (checkProtectionStatus defaultConfig c6WitState 70).2.countP isProtEnded = 1) :=
  ⟨by decide, (C6_auto_exit defaultConfig c6WitState 70).1 (by decide)⟩

/-- C4: a CTCP request from a blocked connection is refused with only the
blocked counters changing; otherwise the per-connection window is purged,
now is recorded, and reaching ctcp_threshold enters protection mode,
blocks the connection for block_duration and refuses the request, while a
count below the threshold allows it.  The default-configuration scenario
(five requests, block until expiry, then allow) instantiates this. -/
theorem C4_ctcp_flood (cfg : FloodnetConfig) (s : ANTIFLOODNETREC)
    (tr : List (Nat × List Int)) (server : Nat) (now : Int)
    (hEn : cfg.enabled = true) :
    (aliveB s.ctcpBlockedUntil server now = true →
      checkCtcpFlood cfg s tr server now =
        ({ s with totalMessagesBlocked := s.totalMessagesBlocked + 1,
                  blockedSinceNotice := s.blockedSinceNotice + 1 },
         tr, FloodResult.Block, [])) ∧
    (aliveB s.ctcpBlockedUntil server now = false →
      (cfg.ctcpThreshold ≤ (now :: cleanupOldCtcp cfg ((alookup server tr).getD []) now).length →
        (checkCtcpFlood cfg s tr server now).2.2.1 = FloodResult.Block ∧
        (checkCtcpFlood cfg s tr server now).1.inProtectionMode = true ∧
        alookup server (checkCtcpFlood cfg s tr server now).1.ctcpBlockedUntil =
          some (now + (cfg.blockDuration : Int)) ∧
        (checkCtcpFlood cfg s tr server now).1.floodAttemptsToday = s.floodAttemptsToday + 1 ∧
        (checkCtcpFlood cfg s tr server now).1.totalMessagesBlocked = s.totalMessagesBlocked + 1 ∧
        alookup server (checkCtcpFlood cfg s tr server now).2.1 =
          some (now :: cleanupOldCtcp cfg ((alookup server tr).getD []) now)) ∧
      ((now :: cleanupOldCtcp cfg ((alookup server tr).getD []) now).length < cfg.ctcpThreshold →
        (checkCtcpFlood cfg s tr server now).2.2.1 = FloodResult.Allow ∧
        alookup server (checkCtcpFlood cfg s tr server now).2.1 =
          some (now :: cleanupOldCtcp cfg ((alookup server tr).getD []) now))) ∧
    (let r1 := checkCtcpFlood defaultConfig initState [] 9 0
     let r2 := checkCtcpFlood defaultConfig r1.1 r1.2.1 9 1
     let r3 := checkCtcpFlood defaultConfig r2.1 r2.2.1 9 2
     let r4 := checkCtcpFlood defaultConfig r3.1 r3.2.1 9 3
     let r5 := checkCtcpFlood defaultConfig r4.1 r4.2.1 9 4
     let r6 := checkCtcpFlood defaultConfig r5.1 r5.2.1 9 10
     let r7 := checkCtcpFlood defaultConfig r6.1 r6.2.1 9 64
     r4.2.2.1 = FloodResult.Allow ∧ r5.2.2.1 = FloodResult.Block ∧
       r6.2.2.1 = FloodResult.Block ∧ r7.2.2.1 = FloodResult.Allow) := by
  refine ⟨?_, ?_, by decide⟩
  · intro hal
    have hfst : (isBlockedIn s.ctcpBlockedUntil server now).1 = true := by
      rw [isBlockedIn_fst]; exact hal
    have hsnd := isBlockedIn_snd_of_alive s.ctcpBlockedUntil server now hal
    unfold checkCtcpFlood
    simp [hEn, isCtcpBlocked, hfst, hsnd]
  · intro hal
    have hfst : (isBlockedIn s.ctcpBlockedUntil server now).1 = false := by
      rw [isBlockedIn_fst]; exact hal
    constructor
    · intro hth
      have hth2 : cfg.ctcpThreshold ≤
          (cleanupOldCtcp cfg ((alookup server tr).getD []) now).length + 1 := by
        simpa using hth
      unfold checkCtcpFlood
      cases hin : s.inProtectionMode <;>
        simp [hEn, isCtcpBlocked, hfst, hth2, enterProtectionMode, hin,
              alookup_ainsert_self]
    · intro hth
      have hth2 : ¬(cfg.ctcpThreshold ≤
          (cleanupOldCtcp cfg ((alookup server tr).getD []) now).length + 1) := by
        simpa using not_le.mpr hth
      unfold checkCtcpFlood
      simp [hEn, isCtcpBlocked, hfst, hth2, alookup_ainsert_self]

theorem C4_ctcp_flood_witness :
    (defaultConfig.enabled = true ∧
      aliveB initState.ctcpBlockedUntil 7 4 = false ∧
      defaultConfig.ctcpThreshold ≤
        ((4 : Int) :: cleanupOldCtcp defaultConfig ((alookup 7 c4WitTrack).getD []) 4).length) ∧
    ((checkCtcpFlood defaultConfig initState c4WitTrack 7 4).2.2.1 = FloodResult.Block ∧
      (checkCtcpFlood defaultConfig initState c4WitTrack 7 4).1.inProtectionMode = true ∧
      alookup 7 (checkCtcpFlood defaultConfig initState c4WitTrack 7 4).1.ctcpBlockedUntil =
        some (4 + (defaultConfig.blockDuration : Int)) ∧
      (checkCtcpFlood defaultConfig initState c4WitTrack 7 4).1.floodAttemptsToday =
        initState.floodAttemptsToday + 1 ∧
      (checkCtcpFlood defaultConfig initState c4WitTrack 7 4).1.totalMessagesBlocked =
        initState.totalMessagesBlocked + 1 ∧
      alookup 7 (checkCtcpFlood defaultConfig initState c4WitTrack 7 4).2.1 =
        some ((4 : Int) :: cleanupOldCtcp defaultConfig ((alookup 7 c4WitTrack).getD []) 4)) :=
  ⟨by decide,
   ((C4_ctcp_flood defaultConfig initState c4WitTrack 7 4 (by decide)).2.1
      (by decide)).1 (by decide)⟩

theorem messageNickScan_cons (cfg : FloodnetConfig) (newnick : String) (now : Int)
    (s : ANTIFLOODNETREC) (ch : CHANNELREC) (rest : List CHANNELREC) :
    messageNickScan cfg newnick now s (ch :: rest) =
      if ((isNickChannelBlocked s ch.name now).1 && ch.nicks.contains newnick) = true then
        ({ extendChannelBlock cfg (isNickChannelBlocked s ch.name now).2 ch.name now with
             totalMessagesBlocked :=
               (isNickChannelBlocked s ch.name now).2.totalMessagesBlocked + 1,
             blockedSinceNotice :=
               (isNickChannelBlocked s ch.name now).2.blockedSinceNotice + 1 },
         FloodResult.Block)
      else messageNickScan cfg newnick now (isNickChannelBlocked s ch.name now).2 rest := rfl

theorem messageNickScan_allow (cfg : FloodnetConfig) (newnick : String) (now : Int)
    (chs : List CHANNELREC) :
    ∀ (s : ANTIFLOODNETREC),
      (∀ c ∈ chs, ¬(aliveB s.nickBlockedChannels c.name now = true ∧
        c.nicks.contains newnick = true)) →
      (messageNickScan cfg newnick now s chs).2 = FloodResult.Allow := by
  induction chs with
  | nil => intro s _; rfl
  | cons ch rest ih =>
    intro s h
    have hcond : ¬((isNickChannelBlocked s ch.name now).1 = true ∧
        ch.nicks.contains newnick = true) := by
      rw [isNickChannelBlocked, isBlockedIn_fst]
      exact h ch (List.mem_cons_self ch rest)
    have hfalse : ((isNickChannelBlocked s ch.name now).1 && ch.nicks.contains newnick) = false := by
      cases h1 : (isNickChannelBlocked s ch.name now).1
      · rfl
      · cases h2 : ch.nicks.contains newnick
        · rfl
        · exact absurd ⟨h1, h2⟩ hcond
    rw [messageNickScan_cons]
    simp only [hfalse, Bool.false_eq_true, if_false]
    apply ih
    intro c hc
    have hpres : aliveB (isNickChannelBlocked s ch.name now).2.nickBlockedChannels c.name now =
        aliveB s.nickBlockedChannels c.name now := by
      simp only [isNickChannelBlocked]
      exact aliveB_isBlockedIn_snd s.nickBlockedChannels ch.name c.name now
    rw [hpres]
    exact h c (List.mem_cons_of_mem ch hc)

theorem messageNickScan_first_hit (cfg : FloodnetConfig) (newnick : String) (now : Int)
    (pre : List CHANNELREC) :
    ∀ (s : ANTIFLOODNETREC) (ch : CHANNELREC) (rest : List CHANNELREC),
      (∀ c ∈ pre, ¬(aliveB s.nickBlockedChannels c.name now = true ∧
        c.nicks.contains newnick = true)) →
      aliveB s.nickBlockedChannels ch.name now = true →
      ch.nicks.contains newnick = true →
      (messageNickScan cfg newnick now s (pre ++ ch :: rest)).2 = FloodResult.Block ∧
      alookup ch.name
        (messageNickScan cfg newnick now s (pre ++ ch :: rest)).1.nickBlockedChannels =
        some (now + (cfg.blockDuration : Int)) ∧
      (messageNickScan cfg newnick now s (pre ++ ch :: rest)).1.totalMessagesBlocked =
        s.totalMessagesBlocked + 1 ∧
      (messageNickScan cfg newnick now s (pre ++ ch :: rest)).1.blockedSinceNotice =
        s.blockedSinceNotice + 1 ∧
      messageNickScan cfg newnick now s (pre ++ ch :: rest) =
        messageNickScan cfg newnick now s (pre ++ [ch]) := by
  induction pre with
  | nil =>
    intro s ch rest _ hb hm
    have hfst : (isNickChannelBlocked s ch.name now).1 = true := by
      rw [isNickChannelBlocked, isBlockedIn_fst]; exact hb
    have hsnd : (isNickChannelBlocked s ch.name now).2 = s := by
      simp only [isNickChannelBlocked,
        isBlockedIn_snd_of_alive s.nickBlockedChannels ch.name now hb]
    simp only [List.nil_append]
    simp only [messageNickScan_cons]
    simp only [hfst, hm, Bool.and_self, if_true, hsnd, extendChannelBlock]
    simp [alookup_ainsert_self]
  | cons c0 pre ih =>
    intro s ch rest hpre hb hm
    have hcond : ¬((isNickChannelBlocked s c0.name now).1 = true ∧
        c0.nicks.contains newnick = true) := by
      rw [isNickChannelBlocked, isBlockedIn_fst]
      exact hpre c0 (List.mem_cons_self c0 pre)
    have hfalse : ((isNickChannelBlocked s c0.name now).1 && c0.nicks.contains newnick) = false := by
      cases h1 : (isNickChannelBlocked s c0.name now).1
      · rfl
      · cases h2 : c0.nicks.contains newnick
        · rfl
        · exact absurd ⟨h1, h2⟩ hcond
    have halive : ∀ t, aliveB (isNickChannelBlocked s c0.name now).2.nickBlockedChannels t now =
        aliveB s.nickBlockedChannels t now := by
      intro t
      simp only [isNickChannelBlocked]
      exact aliveB_isBlockedIn_snd s.nickBlockedChannels c0.name t now
    have hcounters : (isNickChannelBlocked s c0.name now).2.totalMessagesBlocked =
        s.totalMessagesBlocked ∧
        (isNickChannelBlocked s c0.name now).2.blockedSinceNotice = s.blockedSinceNotice := by
      simp [isNickChannelBlocked]
    obtain ⟨g1, g2, g3, g4, g5⟩ :=
      ih (isNickChannelBlocked s c0.name now).2 ch rest
        (fun c hc => by rw [halive c.name]; exact hpre c (List.mem_cons_of_mem c0 hc))
        (by rw [halive ch.name]; exact hb) hm
    simp only [List.cons_append, messageNickScan_cons]
    simp only [hfalse, Bool.false_eq_true, if_false]
    exact ⟨g1, g2, by rw [g3, hcounters.1], by rw [g4, hcounters.2], g5⟩

/-- C5: a nick-change announcement scans the channels in order; at the
first channel that is blocked and holds the renamed nick, the block is
renewed for block_duration, the blocked counters are incremented, the
announcement is refused and later channels are not examined; when no
blocked channel holds the nick the announcement is allowed. -/
theorem C5_nick_suppression (cfg : FloodnetConfig) (s : ANTIFLOODNETREC)
    (newnick : String) (now : Int) (pre : List CHANNELREC) (ch : CHANNELREC)
    (rest channels : List CHANNELREC) (hEn : cfg.enabled = true) :
    ((channels = pre ++ ch :: rest →
      (∀ c ∈ pre, ¬(aliveB s.nickBlockedChannels c.name now = true ∧
        c.nicks.contains newnick = true)) →
      aliveB s.nickBlockedChannels ch.name now = true →
      ch.nicks.contains newnick = true →
      (sigMessageNick cfg s channels newnick now).2 = FloodResult.Block ∧
      alookup ch.name (sigMessageNick cfg s channels newnick now).1.nickBlockedChannels =
        some (now + (cfg.blockDuration : Int)) ∧
      (sigMessageNick cfg s channels newnick now).1.totalMessagesBlocked =
        s.totalMessagesBlocked + 1 ∧
      (sigMessageNick cfg s channels newnick now).1.blockedSinceNotice =
        s.blockedSinceNotice + 1 ∧
      sigMessageNick cfg s channels newnick now =
        sigMessageNick cfg s (pre ++ [ch]) newnick now)) ∧
    ((∀ c ∈ channels, ¬(aliveB s.nickBlockedChannels c.name now = true ∧
        c.nicks.contains newnick = true)) →
      (sigMessageNick cfg s channels newnick now).2 = FloodResult.Allow) := by
  constructor
  · intro hsplit hpre hb hm
    subst hsplit
    unfold sigMessageNick
    simp only [hEn, Bool.true_eq_false, if_false]
    exact messageNickScan_first_hit cfg newnick now pre s ch rest hpre hb hm
  · intro h
    unfold sigMessageNick
    simp only [hEn, Bool.true_eq_false, if_false]
    exact messageNickScan_allow cfg newnick now channels s h

theorem C5_nick_suppression_witness :
    (c5WitChannels =
      [{ name := "#other", nicks := ["bob", "eve"] }] ++
        { name := "#test", nicks := ["alice", "bob"] } :: [{ name := "#later", nicks := ["bob"] }] ∧
      aliveB c5WitState.nickBlockedChannels "#test" 10 = true ∧
      (["alice", "bob"] : List String).contains "bob" = true) ∧
    ((sigMessageNick defaultConfig c5WitState c5WitChannels "bob" 10).2 = FloodResult.Block ∧
      alookup "#test"
        (sigMessageNick defaultConfig c5WitState c5WitChannels "bob" 10).1.nickBlockedChannels =
        some (10 + (defaultConfig.blockDuration : Int)) ∧
      (sigMessageNick defaultConfig c5WitState c5WitChannels "bob" 10).1.totalMessagesBlocked =
        c5WitState.totalMessagesBlocked + 1) ∧
    ((sigMessageNick defaultConfig c5WitState
        [{ name := "#other", nicks := ["bob", "eve"] }] "bob" 10).2 = FloodResult.Allow) := by
  have hmain := (C5_nick_suppression defaultConfig c5WitState "bob" 10
      [{ name := "#other", nicks := ["bob", "eve"] }]
      { name := "#test", nicks := ["alice", "bob"] }
      [{ name := "#later", nicks := ["bob"] }] c5WitChannels (by decide)).1
      (by decide) (by decide) (by decide) (by decide)
  have hallow := (C5_nick_suppression defaultConfig c5WitState "bob" 10 [] 
      { name := "#x", nicks := [] } []
      [{ name := "#other", nicks := ["bob", "eve"] }] (by decide)).2 (by decide)
  exact ⟨by decide, ⟨hmain.1, hmain.2.1, hmain.2.2.1⟩, hallow⟩

/-- C1 (amended): when an evaluation is not short-circuited by the
protection-mode pre-check and the purged window together with the current
message holds at least tilde_threshold records of which at least
tilde_threshold carry the unverified-ident flag, the evaluation returns
Block, protection mode is active afterwards, the attempt counter and both
blocked counters are incremented, and every window text not already
blocked is inserted into the blocklist with expiry now plus
block_duration. -/
theorem C1_tilde_rule (cfg : FloodnetConfig) (s : ANTIFLOODNETREC)
    (nick address text : String) (now : Int)
    (hEn : cfg.enabled = true)
    (hSC : floodShortCircuit (floodMidState cfg s now) (buildUserhost nick address) text now = false)
    (hLen : cfg.tildeThreshold ≤ (analysisWindow cfg s nick address text now).length)
    (hTil : cfg.tildeThreshold ≤ countTildeUsers (analysisWindow cfg s nick address text now)) :
    (checkMessageFloodRun cfg s nick address text now).2.1 = FloodResult.Block ∧
    (checkMessageFloodRun cfg s nick address text now).1.inProtectionMode = true ∧
    (checkMessageFloodRun cfg s nick address text now).1.floodAttemptsToday =
      (floodMidState cfg s now).floodAttemptsToday + 1 ∧
    (checkMessageFloodRun cfg s nick address text now).1.totalMessagesBlocked =
      (floodMidState cfg s now).totalMessagesBlocked + 1 ∧
    (checkMessageFloodRun cfg s nick address text now).1.blockedSinceNotice =
      (if (floodMidState cfg s now).inProtectionMode
        then (floodMidState cfg s now).blockedSinceNotice else 0) + 1 ∧
    (∀ r ∈ analysisWindow cfg s nick address text now,
      aliveB (floodMidState cfg s now).blockedPatterns r.text now = false →
      alookup r.text (checkMessageFloodRun cfg s nick address text now).1.blockedPatterns =
        some (now + (cfg.blockDuration : Int))) := by
  have hrun := checkMessageFloodRun_noSC cfg s nick address text now hEn hSC
  obtain ⟨p1, p2, p3, p4, p5, p6⟩ := floodPreRuleState_fields cfg s text now
  have hwin : (addMessageToWindow (floodPreRuleState cfg s text now) nick
      (buildUserhost nick address) text now).messageWindow =
      analysisWindow cfg s nick address text now := by
    simp only [addMessageToWindow, analysisWindow]
    rw [p1]
  obtain ⟨f1, f2, f3, f4, f5, f6, f7⟩ :=
    floodRules_tilde_fire cfg
      (addMessageToWindow (floodPreRuleState cfg s text now) nick
        (buildUserhost nick address) text now) text now
      (by rw [hwin]; exact hLen) (by rw [hwin]; exact hTil)
  refine ⟨?_, ?_, ?_, ?_, ?_, ?_⟩
  · rw [hrun]; exact f1
  · rw [hrun]; exact f2
  · rw [hrun]
    refine f3.trans ?_
    simp only [addMessageToWindow]
    rw [p3]
  · rw [hrun]
    refine f4.trans ?_
    simp only [addMessageToWindow]
    rw [p4]
  · rw [hrun]
    refine f5.trans ?_
    simp only [addMessageToWindow]
    rw [p2, p5]
  · intro r hr halr
    rw [hrun]
    show alookup r.text (floodRules cfg (addMessageToWindow (floodPreRuleState cfg s text now)
      nick (buildUserhost nick address) text now) text now).1.blockedPatterns =
      some (now + (cfg.blockDuration : Int))
    rw [f6]
    apply blockWindowTexts_lookup_mem
    · exact ⟨r, by rw [hwin]; exact hr, rfl⟩
    · have : (addMessageToWindow (floodPreRuleState cfg s text now) nick
          (buildUserhost nick address) text now).blockedPatterns =
          (floodPreRuleState cfg s text now).blockedPatterns := by
        simp only [addMessageToWindow]
      rw [this, p6 r.text]
      exact halr

/-- C1 counterexample: with the protection-mode pre-check firing, the
purged window can hold five tilde-ident records (meeting the stated
conditions with tildeThreshold five) while the evaluation, although it
returns Block, does not increment the attempt counter as the claim
requires. -/
theorem C1_counterexample :
    defaultConfig.tildeThreshold ≤
      (cleanupOldMessages defaultConfig c1CexState.messageWindow 10).length ∧
    defaultConfig.tildeThreshold ≤
      countTildeUsers (cleanupOldMessages defaultConfig c1CexState.messageWindow 10) ∧
    (checkMessageFloodRun defaultConfig c1CexState "z" "z!~zz@h" "f" 10).2.1 =
      FloodResult.Block ∧
    (checkMessageFloodRun defaultConfig c1CexState "z" "z!~zz@h" "f" 10).1.floodAttemptsToday =
      c1CexState.floodAttemptsToday := by decide

theorem C1_tilde_rule_witness :
    (defaultConfig.enabled = true ∧
      floodShortCircuit (floodMidState defaultConfig c1WitState 10)
        (buildUserhost "u5" "u5!~e@h") "m5" 10 = false ∧
      defaultConfig.tildeThreshold ≤
        (analysisWindow defaultConfig c1WitState "u5" "u5!~e@h" "m5" 10).length ∧
      defaultConfig.tildeThreshold ≤
        countTildeUsers (analysisWindow defaultConfig c1WitState "u5" "u5!~e@h" "m5" 10)) ∧
    ((checkMessageFloodRun defaultConfig c1WitState "u5" "u5!~e@h" "m5" 10).2.1 =
        FloodResult.Block ∧
      (checkMessageFloodRun defaultConfig c1WitState "u5" "u5!~e@h" "m5" 10).1.inProtectionMode =
        true ∧
      (checkMessageFloodRun defaultConfig c1WitState "u5" "u5!~e@h" "m5" 10).1.floodAttemptsToday =
        (floodMidState defaultConfig c1WitState 10).floodAttemptsToday + 1) :=
  ⟨⟨by decide, by decide, by decide, by decide⟩,
   have h := C1_tilde_rule defaultConfig c1WitState "u5" "u5!~e@h" "m5" 10
     (by decide) (by decide) (by decide) (by decide)
   ⟨h.1, h.2.1, h.2.2.1⟩⟩

/-- C2 (amended): when an evaluation is not short-circuited by the
protection-mode pre-check, the tilde rule does not fire, and the purged
window with the current message holds at least five records whose most
frequent text mc occurs cnt times with cnt at least duplicate_threshold:
if mc is not already blocked the evaluation enters protection mode,
inserts mc with expiry now plus block_duration and increments the attempt
counter; the evaluation returns Block exactly when the current text equals
mc, and a text occurring fewer than cnt times is allowed. -/
theorem C2_duplicate_rule (cfg : FloodnetConfig) (s : ANTIFLOODNETREC)
    (nick address text : String) (now : Int) (mc : String) (cnt : Nat)
    (hEn : cfg.enabled = true)
    (hSC : floodShortCircuit (floodMidState cfg s now) (buildUserhost nick address) text now = false)
    (hT : ¬(cfg.tildeThreshold ≤ (analysisWindow cfg s nick address text now).length ∧
            cfg.tildeThreshold ≤ countTildeUsers (analysisWindow cfg s nick address text now)))
    (hW : 5 ≤ (analysisWindow cfg s nick address text now).length)
    (hFM : findMostCommonMessage (analysisWindow cfg s nick address text now) = (some mc, cnt))
    (hCnt : cfg.duplicateThreshold ≤ cnt) :
    ((checkMessageFloodRun cfg s nick address text now).2.1 = FloodResult.Block ↔ text = mc) ∧
    (aliveB (floodMidState cfg s now).blockedPatterns mc now = false →
      (checkMessageFloodRun cfg s nick address text now).1.inProtectionMode = true ∧
      alookup mc (checkMessageFloodRun cfg s nick address text now).1.blockedPatterns =
        some (now + (cfg.blockDuration : Int)) ∧
      (checkMessageFloodRun cfg s nick address text now).1.floodAttemptsToday =
        (floodMidState cfg s now).floodAttemptsToday + 1) ∧
    (textCount (analysisWindow cfg s nick address text now) text < cnt →
      (checkMessageFloodRun cfg s nick address text now).2.1 = FloodResult.Allow) := by
  have hrun := checkMessageFloodRun_noSC cfg s nick address text now hEn hSC
  obtain ⟨p1, p2, p3, p4, p5, p6⟩ := floodPreRuleState_fields cfg s text now
  have hwin : (addMessageToWindow (floodPreRuleState cfg s text now) nick
      (buildUserhost nick address) text now).messageWindow =
      analysisWindow cfg s nick address text now := by
    simp only [addMessageToWindow, analysisWindow]
    rw [p1]
  obtain ⟨d1, d2⟩ :=
    floodRules_dup cfg
      (addMessageToWindow (floodPreRuleState cfg s text now) nick
        (buildUserhost nick address) text now) text now mc cnt
      (by rw [hwin]; exact hT) (by rw [hwin]; exact hW) (by rw [hwin]; exact hFM) hCnt
  have hbp : (addMessageToWindow (floodPreRuleState cfg s text now) nick
      (buildUserhost nick address) text now).blockedPatterns =
      (floodPreRuleState cfg s text now).blockedPatterns := by
    simp only [addMessageToWindow]
  refine ⟨?_, ?_, ?_⟩
  · rw [hrun]; exact d1
  · intro hal
    have hal2 : aliveB (addMessageToWindow (floodPreRuleState cfg s text now) nick
        (buildUserhost nick address) text now).blockedPatterns mc now = false := by
      rw [hbp, p6 mc]; exact hal
    obtain ⟨g1, g2, g3⟩ := d2 hal2
    refine ⟨?_, ?_, ?_⟩
    · rw [hrun]; exact g1
    · rw [hrun]; exact g2
    · rw [hrun]
      refine g3.trans ?_
      simp only [addMessageToWindow]
      rw [p3]
  · intro hlt
    have hmc : textCount (analysisWindow cfg s nick address text now) mc = cnt := by
      have h1 : (findMostCommonMessage (analysisWindow cfg s nick address text now)).1 =
          some mc := by rw [hFM]
      have h2 := findMostCommonMessage_count (analysisWindow cfg s nick address text now) mc h1
      rw [hFM] at h2
      exact h2.symm
    have hne : ¬(text = mc) := by
      intro he
      have heq : textCount (analysisWindow cfg s nick address text now) text = cnt := by
        rw [congrArg (textCount (analysisWindow cfg s nick address text now)) he, hmc]
      rw [heq] at hlt
      exact lt_irrefl cnt hlt
    cases hres : (checkMessageFloodRun cfg s nick address text now).2.1
    · rfl
    · exact absurd (d1.mp (by rw [hrun] at hres; exact hres)) hne

/-- C2 counterexample: while the protection-mode pre-check fires on a
blocked incoming text, the purged window can hold five copies of an
unblocked text A (duplicateThreshold three): the claim then requires A to
be inserted, the attempt counter to grow, and the evaluation to Allow a
current text different from A, yet the code inserts nothing, keeps the
counter, and returns Block. -/
theorem C2_counterexample :
    (cleanupOldMessages defaultConfig c2CexState.messageWindow 10).length = 5 ∧
    countTildeUsers (cleanupOldMessages defaultConfig c2CexState.messageWindow 10) = 0 ∧
    findMostCommonMessage (cleanupOldMessages defaultConfig c2CexState.messageWindow 10) =
      (some "A", 5) ∧
    aliveB c2CexState.blockedPatterns "A" 10 = false ∧
    (checkMessageFloodRun defaultConfig c2CexState "n" "n!u@h" "B" 10).2.1 =
      FloodResult.Block ∧
    alookup "A" (checkMessageFloodRun defaultConfig c2CexState "n" "n!u@h" "B" 10).1.blockedPatterns =
      none ∧
    (checkMessageFloodRun defaultConfig c2CexState "n" "n!u@h" "B" 10).1.floodAttemptsToday =
      c2CexState.floodAttemptsToday := by decide

theorem C2_duplicate_rule_witness :
    (defaultConfig.enabled = true ∧
      floodShortCircuit (floodMidState defaultConfig c2WitState 10)
        (buildUserhost "u5" "u5!e@h") "SPAM" 10 = false ∧
      ¬(defaultConfig.tildeThreshold ≤
          (analysisWindow defaultConfig c2WitState "u5" "u5!e@h" "SPAM" 10).length ∧
        defaultConfig.tildeThreshold ≤
          countTildeUsers (analysisWindow defaultConfig c2WitState "u5" "u5!e@h" "SPAM" 10)) ∧
      5 ≤ (analysisWindow defaultConfig c2WitState "u5" "u5!e@h" "SPAM" 10).length ∧
      findMostCommonMessage (analysisWindow defaultConfig c2WitState "u5" "u5!e@h" "SPAM" 10) =
        (some "SPAM", 3) ∧
      defaultConfig.duplicateThreshold ≤ 3 ∧
      aliveB (floodMidState defaultConfig c2WitState 10).blockedPatterns "SPAM" 10 = false) ∧
    (((checkMessageFloodRun defaultConfig c2WitState "u5" "u5!e@h" "SPAM" 10).2.1 =
        FloodResult.Block ↔ ("SPAM" : String) = "SPAM") ∧
      (checkMessageFloodRun defaultConfig c2WitState "u5" "u5!e@h" "SPAM" 10).1.inProtectionMode =
        true ∧
      alookup "SPAM"
        (checkMessageFloodRun defaultConfig c2WitState "u5" "u5!e@h" "SPAM" 10).1.blockedPatterns =
        some (10 + (defaultConfig.blockDuration : Int)) ∧
      (checkMessageFloodRun defaultConfig c2WitState "u5" "u5!e@h" "SPAM" 10).1.floodAttemptsToday =
        (floodMidState defaultConfig c2WitState 10).floodAttemptsToday + 1) :=
  ⟨⟨by decide, by decide, by decide, by decide, by decide, by decide, by decide⟩,
   have h := C2_duplicate_rule defaultConfig c2WitState "u5" "u5!e@h" "SPAM" 10 "SPAM" 3
     (by decide) (by decide) (by decide) (by decide) (by decide) (by decide)
   have h2 := h.2.1 (by decide)
   ⟨h.1, h2.1, h2.2.1, h2.2.2⟩⟩

/-- C8 (amended): when, after CheckStatus and the purge have run,
protection mode is active and the current text is blocked or the userhost
carries the tilde-ident marker, the evaluation returns Block, increments
the total-blocked counter by one and the since-notice counter by one
relative to its post-CheckStatus value, leaves mode active, does not add
the message (the final window is exactly the purged window), and leaves
the attempt counter and the other stores unchanged: no detection rule
runs. -/
theorem C8_protection_block_frame (cfg : FloodnetConfig) (s : ANTIFLOODNETREC)
    (nick address text : String) (now : Int)
    (hEn : cfg.enabled = true)
    (hSC : floodShortCircuit (floodMidState cfg s now) (buildUserhost nick address) text now = true) :
    (checkMessageFloodRun cfg s nick address text now).2.1 = FloodResult.Block ∧
    (checkMessageFloodRun cfg s nick address text now).1.inProtectionMode = true ∧
    (checkMessageFloodRun cfg s nick address text now).1.totalMessagesBlocked =
      s.totalMessagesBlocked + 1 ∧
    (checkMessageFloodRun cfg s nick address text now).1.blockedSinceNotice =
      (floodMidState cfg s now).blockedSinceNotice + 1 ∧
    (checkMessageFloodRun cfg s nick address text now).1.messageWindow =
      cleanupOldMessages cfg s.messageWindow now ∧
    (checkMessageFloodRun cfg s nick address text now).1.floodAttemptsToday =
      s.floodAttemptsToday ∧
    (checkMessageFloodRun cfg s nick address text now).1.ctcpBlockedUntil =
      s.ctcpBlockedUntil ∧
    (checkMessageFloodRun cfg s nick address text now).1.nickBlockedChannels =
      s.nickBlockedChannels ∧
    (checkMessageFloodRun cfg s nick address text now).1.channelNickChanges =
      s.channelNickChanges := by
  have hrun := checkMessageFloodRun_SC cfg s nick address text now hEn hSC
  obtain ⟨q1, q2, q3, q4, q5, q6, q7, q8⟩ := checkProtectionStatus_frame cfg s now
  have hin : (floodMidState cfg s now).inProtectionMode = true := by
    have := hSC
    unfold floodShortCircuit at this
    exact (Bool.and_eq_true_iff.mp this).1
  have m_tot : (floodMidState cfg s now).totalMessagesBlocked = s.totalMessagesBlocked := by
    simp [floodMidState, q7]
  have m_win : (floodMidState cfg s now).messageWindow =
      cleanupOldMessages cfg s.messageWindow now := by
    simp [floodMidState, q1]
  have m_fat : (floodMidState cfg s now).floodAttemptsToday = s.floodAttemptsToday := by
    simp [floodMidState, q6]
  have m_ctcp : (floodMidState cfg s now).ctcpBlockedUntil = s.ctcpBlockedUntil := by
    simp [floodMidState, q4]
  have m_nbc : (floodMidState cfg s now).nickBlockedChannels = s.nickBlockedChannels := by
    simp [floodMidState, q5]
  have m_cnc : (floodMidState cfg s now).channelNickChanges = s.channelNickChanges := by
    simp [floodMidState, q2]
  rw [hrun]
  refine ⟨rfl, ?_, ?_, ?_, ?_, ?_, ?_, ?_, ?_⟩
  · simp [isMessageBlocked, hin]
  · simp [isMessageBlocked, m_tot]
  · simp [isMessageBlocked]
  · simp [isMessageBlocked, m_win]
  · simp [isMessageBlocked, m_fat]
  · simp [isMessageBlocked, m_ctcp]
  · simp [isMessageBlocked, m_nbc]
  · simp [isMessageBlocked, m_cnc]

/-- C8 counterexample: an evaluation entered while protection mode is
Active with the incoming text blocked can auto-exit inside CheckStatus
before the pre-check runs; the message is then allowed and added to the
window, against the claim that every such evaluation returns Block and
leaves the window unchanged. -/
theorem C8_counterexample :
    c8CexState.inProtectionMode = true ∧
    aliveB c8CexState.blockedPatterns "Z" 70 = true ∧
    (checkMessageFloodRun defaultConfig c8CexState "n" "evil!u@h" "Z" 70).2.1 =
      FloodResult.Allow ∧
    (checkMessageFloodRun defaultConfig c8CexState "n" "evil!u@h" "Z" 70).1.messageWindow.length =
      1 := by decide

theorem C8_protection_block_frame_witness :
    (defaultConfig.enabled = true ∧
      floodShortCircuit (floodMidState defaultConfig c8WitState 10)
        (buildUserhost "n" "n!u@h") "Z" 10 = true) ∧
    ((checkMessageFloodRun defaultConfig c8WitState "n" "n!u@h" "Z" 10).2.1 =
        FloodResult.Block ∧
      (checkMessageFloodRun defaultConfig c8WitState "n" "n!u@h" "Z" 10).1.totalMessagesBlocked =
        c8WitState.totalMessagesBlocked + 1 ∧
      (checkMessageFloodRun defaultConfig c8WitState "n" "n!u@h" "Z" 10).1.messageWindow =
        cleanupOldMessages defaultConfig c8WitState.messageWindow 10 ∧
      (checkMessageFloodRun defaultConfig c8WitState "n" "n!u@h" "Z" 10).1.floodAttemptsToday =
        c8WitState.floodAttemptsToday) :=
  ⟨⟨by decide, by decide⟩,
   have h := C8_protection_block_frame defaultConfig c8WitState "n" "n!u@h" "Z" 10
     (by decide) (by decide)
   ⟨h.1, h.2.2.1, h.2.2.2.2.1, h.2.2.2.2.2.1⟩⟩
